import Mathlib

/-!
Shallow embedding of `src/lib/async-bench.ts` (adaptive asynchronous
benchmark engine): the statistics estimator (`getTimings`, `getStddev`,
`tTable`), the adaptive cycle scheduler (`nextIterationCount`), the
single-benchmark runner (`benchmark` with its inner `cycle`, `cycleSync`
and `cycleDetailed` helpers) and result merging (`BenchmarkResult.add`).

JavaScript numbers are modelled as real numbers extended with the IEEE
special values `+Infinity`, `-Infinity` and `NaN` (type `JSN`), because
the source relies on their propagation: `getTimings` computes
`moe / mean || Infinity`, divisions by zero appear in the scheduler, and
the loop condition `!iterationCount` treats `NaN` like `0`.  Float
rounding is not modelled (arithmetic on finite values is exact).
-/

/-- Model of a JavaScript number: a finite real or one of the IEEE
special values. -/
inductive JSN where
  | num : ℝ → JSN
  | inf : JSN
  | ninf : JSN
  | nan : JSN

namespace JSN

/-- JS addition `a + b` restricted to the cases of IEEE arithmetic:
`NaN` propagates, infinities of the same sign are absorbing, and
opposite infinities give `NaN`. -/
noncomputable def add : JSN → JSN → JSN
  | nan, _ => nan
  | _, nan => nan
  | num a, num b => num (a + b)
  | num _, inf => inf
  | num _, ninf => ninf
  | inf, num _ => inf
  | ninf, num _ => ninf
  | inf, inf => inf
  | ninf, ninf => ninf
  | inf, ninf => nan
  | ninf, inf => nan

/-- JS multiplication `a * b`: `NaN` propagates and `0 * Infinity = NaN`. -/
noncomputable def mul : JSN → JSN → JSN
  | nan, _ => nan
  | _, nan => nan
  | num a, num b => num (a * b)
  | num a, inf => if a = 0 then nan else if 0 < a then inf else ninf
  | num a, ninf => if a = 0 then nan else if 0 < a then ninf else inf
  | inf, num b => if b = 0 then nan else if 0 < b then inf else ninf
  | ninf, num b => if b = 0 then nan else if 0 < b then ninf else inf
  | inf, inf => inf
  | ninf, ninf => inf
  | inf, ninf => ninf
  | ninf, inf => ninf

/-- JS division `a / b`: `x / 0` is a signed infinity for `x` nonzero
(the literal zero is `+0`), `0 / 0` is `NaN`, finite over infinite is
`0`, infinite over infinite is `NaN`, and `NaN` propagates. -/
noncomputable def div : JSN → JSN → JSN
  | nan, _ => nan
  | _, nan => nan
  | num a, num b =>
    if b = 0 then (if a = 0 then nan else if 0 < a then inf else ninf)
    else num (a / b)
  | num _, inf => num 0
  | num _, ninf => num 0
  | inf, num b => if 0 ≤ b then inf else ninf
  | ninf, num b => if 0 ≤ b then ninf else inf
  | inf, inf => nan
  | inf, ninf => nan
  | ninf, inf => nan
  | ninf, ninf => nan

/-- JS `Math.min`: `NaN` propagates, `-Infinity` is absorbing and
`+Infinity` is neutral. -/
noncomputable def jsmin : JSN → JSN → JSN
  | nan, _ => nan
  | _, nan => nan
  | num a, num b => num (min a b)
  | num a, inf => num a
  | inf, num b => num b
  | num _, ninf => ninf
  | ninf, num _ => ninf
  | inf, inf => inf
  | ninf, ninf => ninf
  | inf, ninf => ninf
  | ninf, inf => ninf

/-- JS comparison `a < b`: every comparison involving `NaN` is false. -/
def lt : JSN → JSN → Prop
  | num a, num b => a < b
  | num _, inf => True
  | num _, ninf => False
  | num _, nan => False
  | inf, _ => False
  | ninf, num _ => True
  | ninf, inf => True
  | ninf, ninf => False
  | ninf, nan => False
  | nan, _ => False

noncomputable instance (a b : JSN) : Decidable (a.lt b) := by
  cases a <;> cases b <;> simp only [lt] <;> infer_instance

/-- JS `Math.round`: half-up rounding (`round x = floor (x + 1/2)`);
the special values are returned unchanged. -/
noncomputable def round : JSN → JSN
  | num x => num (⌊x + 1 / 2⌋ : ℤ)
  | inf => inf
  | ninf => ninf
  | nan => nan

/-- The value is not a negative number (non-negative finite, `+Infinity`,
or `NaN`; JS `NaN` is neither negative nor non-negative, and the claim
rules out only negative results). -/
def notNeg : JSN → Prop
  | num x => 0 ≤ x
  | inf => True
  | ninf => False
  | nan => True

end JSN

/-- JS `x || Infinity` applied to a number: `0`, `-0` and `NaN` are
falsy and are replaced by `Infinity`; every other value is kept. -/
noncomputable def jsOrInf (x : JSN) : JSN :=
  match x with
  | .num r => if r = 0 then .inf else .num r
  | .nan => .inf
  | .inf => .inf
  | .ninf => .ninf

/-- JS `x || d` for an optional numeric configuration field: `undefined`
(modelled as `none`) and `0` are falsy and fall back to the default. -/
noncomputable def orDefault (o : Option ℝ) (d : ℝ) : ℝ :=
  match o with
  | none => d
  | some x => if x = 0 then d else x

/-! ## Statistics estimator (`getSum`, `getMean`, `getStddev`, `tTable`,
`getTimings`, source lines 363-439) -/

/-- Source `getSum`: `arr.reduce((a, b) => a + b, 0)`. -/
def getSum (arr : List ℝ) : ℝ :=
  arr.foldl (fun a b => a + b) 0

/-- The finite value of `getMean` on a non-empty list (`getSum / length`).
For non-empty lists this is the JS value of `getMean`. -/
noncomputable def getMeanR (arr : List ℝ) : ℝ :=
  getSum arr / arr.length

/-- Source `getMean`: `getSum(arr) / arr.length`, an IEEE division, so
the mean of the empty list is `0 / 0 = NaN`. -/
noncomputable def getMean (arr : List ℝ) : JSN :=
  JSN.div (.num (getSum arr)) (.num arr.length)

/-- JS `arr.reduce((a, b) => a + b)` without seed: folds the tail over
the head.  The source only applies it to non-empty arrays (the empty
case, where JS would throw, is unreachable behind the
`if (!arr.length)` guard of `getStddev` and is mapped to `0`). -/
def reduceSum1 : List ℝ → ℝ
  | [] => 0
  | a :: t => t.foldl (fun x y => x + y) a

/-- Source `getStddev` (lines 409-417): `0` for the empty array,
otherwise `sqrt(arr.map(x => (x - mean)^2).reduce((a,b) => a+b) / n)`
with `mean = getMean(arr)` (finite here because the array is
non-empty).  The radicand is a mean of squares, hence non-negative, so
`Math.sqrt` never produces `NaN` here and `Real.sqrt` is faithful. -/
noncomputable def getStddev (arr : List ℝ) : ℝ :=
  if arr.length = 0 then 0
  else Real.sqrt (reduceSum1 (arr.map fun x => (x - getMeanR arr) ^ 2) / arr.length)

/-- The values of the source `tTable` for keys `'1'` .. `'30'`
(two-tailed 95% Student t critical values). -/
def tTableVals : List ℚ :=
  [12.706, 4.303, 3.182, 2.776, 2.571, 2.447, 2.365, 2.306, 2.262, 2.228,
   2.201, 2.179, 2.16, 2.145, 2.131, 2.12, 2.11, 2.101, 2.093, 2.086,
   2.08, 2.074, 2.069, 2.064, 2.06, 2.056, 2.052, 2.048, 2.045, 2.042]

/-- Dynamic lookup `tTable[df]`: defined for integer keys `1` .. `30`,
`undefined` (i.e. `none`) for every other integer key. -/
def tTableLookup (df : ℤ) : Option ℚ :=
  if 1 ≤ df ∧ df ≤ 30 then some (tTableVals.getD (df - 1).toNat 0) else none

/-- Source line 428, `tTable[Math.round(df) || 1] || tTable['infinity']`:
the degrees of freedom are already an integer (`samples.length - 1`),
so `Math.round` is the identity; `0` is falsy and is replaced by `1`;
a missed lookup (`df < 0` or `df > 30`) falls back to the
`'infinity'` entry `1.96`.  No table value is `0`, so the outer `||`
never rewrites a successful lookup. -/
def tCritical (df : ℤ) : ℚ :=
  (tTableLookup (if df = 0 then 1 else df)).getD 1.96

/-- The `Timings` interface: sample count, mean time and relative margin
of error, the latter two as JS numbers. -/
structure Timings where
  sampleCount : ℕ
  meanTime : JSN
  relativeMarginOfError : JSN

/-- Source `getTimings` (lines 419-439): mean, population standard
deviation, standard error `sd / sqrt(n)`, Student t critical value for
`df = n - 1`, margin of error `sem * critical` and relative margin of
error `moe / mean || Infinity`. -/
noncomputable def getTimings (samples : List ℝ) : Timings :=
  let mean := getMean samples
  let sd := getStddev samples
  let sem := JSN.div (.num sd) (.num (Real.sqrt samples.length))
  let df : ℤ := (samples.length : ℤ) - 1
  let critical : ℝ := (tCritical df : ℚ)
  let moe := JSN.mul sem (.num critical)
  let rme := jsOrInf (JSN.div moe mean)
  { sampleCount := samples.length, meanTime := mean, relativeMarginOfError := rme }

/-- The finite value of the margin of error on a non-empty sample list:
`(sd / sqrt n) * critical`. -/
noncomputable def moeR (samples : List ℝ) : ℝ :=
  getStddev samples / Real.sqrt samples.length * (tCritical ((samples.length : ℤ) - 1) : ℚ)

/-! ## Adaptive cycle scheduler (`nextIterationCount`, source lines
3-7 and 314-356) -/

/-- Source line 3. -/
def TARGET_RELATIVE_MARGIN_OF_ERROR : ℝ := 0.02

/-- Source line 4. -/
def DEFAULT_MAX_TIME : ℝ := 30

/-- Source line 5. -/
def INITIAL_ITERATION_COUNT : ℝ := 1

/-- Source line 6: `DEFAULT_MAX_TIME / 10`.  This is a module constant
(3 seconds); it does not depend on the `maxTime` of the configuration
being run. -/
noncomputable def TARGET_CYCLE_TIME : ℝ := DEFAULT_MAX_TIME / 10

/-- Source line 7: the initial set-up time is given back to the budget. -/
def INCLUDE_INITIAL_SETUP_IN_MAX_TIME : Bool := false

/-- `BenchmarkConfig`, restricted to the numeric fields the scheduler
and runner read (`name`, `fn`, `before` and `beforeAll` are behavioural
and are modelled by the oracle of the runner; `none` models an absent
optional field). -/
structure BenchmarkConfig where
  isSync : Bool := false
  maxTime : Option ℝ := none
  initialCount : Option ℝ := none

/-- The `BenchmarkState` interface (source lines 27-36). -/
structure BenchmarkState where
  timings : Timings
  cycles : ℕ
  iterationCount : ℝ
  elapsedTime : ℝ
  elapsedNetTime : ℝ
  elapsedTimeForInitialSetUp : ℝ
  elapsedCycleGrossTime : ℝ
  config : BenchmarkConfig

/-- Source lines 315-320: `maxTime - elapsedTime`, plus the initial
set-up time because `INCLUDE_INITIAL_SETUP_IN_MAX_TIME` is `false`. -/
noncomputable def remainingTimeOf (s : BenchmarkState) : ℝ :=
  let maxTime := orDefault s.config.maxTime DEFAULT_MAX_TIME
  let base := maxTime - s.elapsedTime
  if INCLUDE_INITIAL_SETUP_IN_MAX_TIME then base
  else base + s.elapsedTimeForInitialSetUp

/-- Source line 338: `Math.min(relativeMarginOfError + 1, 10)`. -/
noncomputable def errorFactorOf (s : BenchmarkState) : JSN :=
  JSN.jsmin (JSN.add s.timings.relativeMarginOfError (.num 1)) (.num 10)

/-- Source lines 341-343:
`(elapsedTime - elapsedCycleGrossTime - elapsedTimeForInitialSetUp) / cycles`
(only evaluated when `cycles >= 1`, so the plain real division agrees
with JS). -/
noncomputable def meanSetUpTimeOf (s : BenchmarkState) : ℝ :=
  (s.elapsedTime - s.elapsedCycleGrossTime - s.elapsedTimeForInitialSetUp) / s.cycles

/-- Source lines 349-352: `(remainingTime - meanSetUpTime) / errorFactor`. -/
noncomputable def remainingNetTimeWithSafetyMarginOf (s : BenchmarkState) : JSN :=
  JSN.div (.num (remainingTimeOf s - meanSetUpTimeOf s)) (errorFactorOf s)

/-- Source line 353: `Math.min(remainingNetTimeWithSafetyMargin,
TARGET_CYCLE_TIME)`.  The cap is the constant `TARGET_CYCLE_TIME = 3`. -/
noncomputable def targetNetTimeOf (s : BenchmarkState) : JSN :=
  JSN.jsmin (remainingNetTimeWithSafetyMarginOf s) (.num TARGET_CYCLE_TIME)

/-- Source line 354: `elapsedCycleGrossTime / iterationCount` as an IEEE
division (`0 / 0 = NaN`, `x / 0 = Infinity` for `x > 0`). -/
noncomputable def grossMeanTimePerIterationOf (s : BenchmarkState) : JSN :=
  JSN.div (.num s.elapsedCycleGrossTime) (.num s.iterationCount)

/-- Source `nextIterationCount` (lines 314-356): first cycle always uses
`initialCount || 1`; stop when out of time, when accurate enough, or
when the mean per-cycle set-up cost exceeds the remaining time;
otherwise round the target net time divided by the observed gross time
per iteration. -/
noncomputable def nextIterationCount (s : BenchmarkState) : JSN :=
  let remainingTime := remainingTimeOf s
  if s.cycles = 0 then .num (orDefault s.config.initialCount INITIAL_ITERATION_COUNT)
  else if remainingTime ≤ 0 then .num 0
  else if s.timings.relativeMarginOfError.lt (.num TARGET_RELATIVE_MARGIN_OF_ERROR) then .num 0
  else if remainingTime < meanSetUpTimeOf s then .num 0
  else JSN.round (JSN.div (targetNetTimeOf s) (grossMeanTimePerIterationOf s))

/-- The scheduler of the specification's wording for claim C8: the cap
on the target net time is one tenth of the `maxTime` of the
configuration being run (instead of the constant `TARGET_CYCLE_TIME`).
Modelled from the claim for the refinement comparison, not from the
source. -/
noncomputable def targetNetTimeSpec (s : BenchmarkState) : JSN :=
  JSN.jsmin (remainingNetTimeWithSafetyMarginOf s)
    (.num (orDefault s.config.maxTime DEFAULT_MAX_TIME / 10))

/-! ## Single-benchmark runner (`benchmark` and its cycle helpers,
source lines 43-177 and 183-312).  The timed operation `fn`, the
`before` hook and the clock are modelled by an oracle: for each cycle
index it provides the durations returned by the successive `fn` calls
and the wall-clock overhead of the cycle beyond those durations (the
`before` hook plus measurement overhead), so the gross time of a cycle
is that overhead plus the net time. -/

/-- Oracle data for one cycle. -/
structure CycleData where
  overheadTime : ℝ
  durations : ℕ → ℝ

/-- The cycle helpers (source lines 187-239), merged over the selection
of line 263 `config.isSync ? cycleSync : iterationCount > 10000 ?
cycle : cycleDetailed`: `cycleSync` and `cycle` record the single
sample `netTime / count`, `cycleDetailed` records each iteration's
duration individually; in all three the net time is the sum of the
durations.  Returns `(times, netTime)`. -/
noncomputable def runCycle (cfg : BenchmarkConfig) (count : ℕ) (c : CycleData) :
    List ℝ × ℝ :=
  let durs := (List.range count).map c.durations
  let netTime := getSum durs
  if cfg.isSync then ([netTime / count], netTime)
  else if 10000 < count then ([netTime / count], netTime)
  else (durs, netTime)

/-- The `BenchmarkCycleDetails` class (source lines 43-88). -/
structure BenchmarkCycleDetails where
  name : String
  index : ℕ
  iterationCount : ℝ
  elapsedTime : ℝ
  setUpTime : ℝ
  timingsSoFar : Timings

/-- The `BenchmarkResult` class (source lines 102-152), data fields only. -/
structure BenchmarkResult where
  cycles : ℕ
  cycleDetails : List BenchmarkCycleDetails
  meanTime : JSN
  relativeMarginOfError : JSN
  elapsedTime : ℝ
  setUpTime : ℝ
  iterationCount : ℝ
  samples : List ℝ

/-- Source `BenchmarkResult.add` (lines 160-177), the variadic argument
list as a `List`: concatenates the sample and cycle-detail sequences,
sums the counters and times, and recomputes the timings from the
concatenated samples. -/
noncomputable def BenchmarkResult.add (results : List BenchmarkResult) : BenchmarkResult :=
  let samples := results.foldl (fun v r => v ++ r.samples) []
  let timings := getTimings samples
  { cycles := results.foldl (fun v r => v + r.cycles) 0
    cycleDetails := results.foldl (fun v r => v ++ r.cycleDetails) []
    meanTime := timings.meanTime
    relativeMarginOfError := timings.relativeMarginOfError
    elapsedTime := results.foldl (fun v r => v + r.elapsedTime) 0
    setUpTime := results.foldl (fun v r => v + r.setUpTime) 0
    iterationCount := results.foldl (fun v r => v + r.iterationCount) 0
    samples := samples }

/-- The `BenchmarkResult` built at source lines 302-311 from the final
state, samples and cycle details. -/
def mkBenchmarkResult (state : BenchmarkState) (samples : List ℝ)
    (details : List BenchmarkCycleDetails) : BenchmarkResult :=
  { meanTime := state.timings.meanTime
    relativeMarginOfError := state.timings.relativeMarginOfError
    cycles := details.length
    iterationCount := state.iterationCount
    elapsedTime := state.elapsedTime
    setUpTime := state.elapsedTime - state.elapsedNetTime
    cycleDetails := details
    samples := samples }

/-- One executed cycle of the `while (true)` loop (source lines
268-296), given the accumulated samples and the scheduler's finite
nonzero iteration count `x`: runs the cycle (the model takes `count` as
the ceiling of `x`, the identity on the integer counts the scheduler
produces), appends the recorded times to the samples, advances the
state (the model's clock advances by exactly the gross cycle time,
being the oracle's overhead plus the net time, so `elapsedTime` is the
initial set-up time plus the accumulated gross cycle time) and builds
the `BenchmarkCycleDetails` record of lines 287-296.  Returns the new
state, the new sample list and the detail record. -/
noncomputable def benchCycleStep (cfg : BenchmarkConfig) (oracle : ℕ → CycleData)
    (state : BenchmarkState) (samples : List ℝ) (x : ℝ) :
    BenchmarkState × List ℝ × BenchmarkCycleDetails :=
  let count := (⌈x⌉).toNat
  let c := oracle state.cycles
  let cyc := runCycle cfg count c
  let gross := c.overheadTime + cyc.2
  let samples' := samples ++ cyc.1
  let state' : BenchmarkState :=
    { timings := getTimings samples'
      config := state.config
      cycles := state.cycles + 1
      iterationCount := state.iterationCount + x
      elapsedTime := state.elapsedTimeForInitialSetUp +
        state.elapsedCycleGrossTime + gross
      elapsedNetTime := state.elapsedNetTime + cyc.2
      elapsedCycleGrossTime := state.elapsedCycleGrossTime + gross
      elapsedTimeForInitialSetUp := state.elapsedTimeForInitialSetUp }
  let detail : BenchmarkCycleDetails :=
    { name := ""
      index := state'.cycles - 1
      iterationCount := x
      elapsedTime := state'.elapsedTime
      setUpTime := state'.elapsedTime - state'.elapsedNetTime
      timingsSoFar := state'.timings }
  (state', samples', detail)

/-- The `while (true)` loop of `benchmark` (source lines 260-301), with
explicit fuel (`none` means the fuel ran out, or the scheduler produced
an infinite iteration count, on which the JS loop would never finish).
Each round asks the scheduler for a count; `0` and `NaN` are falsy
(`if (!iterationCount) break`) and end the loop with the result of
lines 302-311; otherwise the cycle executes via `benchCycleStep`. -/
noncomputable def benchRun (cfg : BenchmarkConfig) (oracle : ℕ → CycleData) :
    ℕ → BenchmarkState → List ℝ → List BenchmarkCycleDetails → Option BenchmarkResult
  | 0, _, _, _ => none
  | fuel + 1, state, samples, details =>
    match nextIterationCount state with
    | .nan => some (mkBenchmarkResult state samples details)
    | .inf => none
    | .ninf => none
    | .num x =>
      if x = 0 then some (mkBenchmarkResult state samples details)
      else
        let st := benchCycleStep cfg oracle state samples x
        benchRun cfg oracle fuel st.1 st.2.1 (details ++ [st.2.2])

/-- Source `benchmark` (lines 183-312): run `beforeAll` (its duration is
the `setupTime` argument), initialise the state of lines 249-258 (note
`elapsedTime` starts at `0` even though the initial set-up already
happened) and enter the loop.  There is no validation of the
configuration: no field is checked before the first cycle. -/
noncomputable def benchmark (cfg : BenchmarkConfig) (setupTime : ℝ)
    (oracle : ℕ → CycleData) (fuel : ℕ) : Option BenchmarkResult :=
  benchRun cfg oracle fuel
    { elapsedTime := 0
      elapsedNetTime := 0
      elapsedTimeForInitialSetUp := setupTime
      cycles := 0
      iterationCount := 0
      elapsedCycleGrossTime := 0
      config := cfg
      timings := getTimings [] } [] []

/-- An oracle whose every cycle has no overhead and constant iteration
duration `1`. -/
noncomputable def constOracle : ℕ → CycleData :=
  fun _ => { overheadTime := 0, durations := fun _ => 1 }

/-- A scheduler state as reached after a first cycle of `2` iterations
of a constant operation (`1` second each, no overhead, no set-up, the
default configuration): its timings are those of the zero-variance
sample list `[1, 1]`. -/
noncomputable def c1State : BenchmarkState :=
  { timings := getTimings (List.replicate 2 (1 : ℝ))
    cycles := 1
    iterationCount := 2
    elapsedTime := 1
    elapsedNetTime := 1
    elapsedTimeForInitialSetUp := 0
    elapsedCycleGrossTime := 1
    config := {} }

/-- A scheduler state satisfying claim C5's preconditions (all elapsed
times and counters non-negative) whose accumulated gross cycle time is
`0`: the gross mean time per iteration is then `0` and the final
division yields `Infinity`. -/
noncomputable def c5State : BenchmarkState :=
  { timings := { sampleCount := 2, meanTime := .num 1, relativeMarginOfError := .inf }
    cycles := 1
    iterationCount := 1
    elapsedTime := 1
    elapsedNetTime := 0
    elapsedTimeForInitialSetUp := 0
    elapsedCycleGrossTime := 0
    config := {} }

/-- A state after a first cycle of 10 iterations (gross time 1 s) that
followed a one-time set-up of 10 s, with `maxTime = 10 < 11 = set-up
plus first cycle`: the premise of claim C6. -/
noncomputable def c6State : BenchmarkState :=
  { timings := { sampleCount := 10, meanTime := .num (1 / 10), relativeMarginOfError := .inf }
    cycles := 1
    iterationCount := 10
    elapsedTime := 11
    elapsedNetTime := 1
    elapsedTimeForInitialSetUp := 10
    elapsedCycleGrossTime := 1
    config := { maxTime := some 10, initialCount := some 10 }}

/-- Like `c6State` but with `maxTime = 1/2`, not exceeding the gross
time of the first cycle: here the scheduler does stop. -/
noncomputable def c6StopState : BenchmarkState :=
  { timings := { sampleCount := 10, meanTime := .num (1 / 10), relativeMarginOfError := .inf }
    cycles := 1
    iterationCount := 10
    elapsedTime := 11
    elapsedNetTime := 1
    elapsedTimeForInitialSetUp := 10
    elapsedCycleGrossTime := 1
    config := { maxTime := some (1 / 2), initialCount := some 10 }}

/-- A non-stopping scheduler state of a configuration with
`maxTime = 100`: distinguishes the constant cycle-time cap
`TARGET_CYCLE_TIME = 3` from the claimed cap `maxTime / 10 = 10`. -/
noncomputable def c8State : BenchmarkState :=
  { timings := { sampleCount := 1, meanTime := .num 1, relativeMarginOfError := .num 1 }
    cycles := 1
    iterationCount := 1
    elapsedTime := 1
    elapsedNetTime := 1
    elapsedTimeForInitialSetUp := 0
    elapsedCycleGrossTime := 1
    config := { maxTime := some 100 }}

/-! ## Helper lemmas -/

lemma getSum_eq_sum (l : List ℝ) : getSum l = l.sum := by
  rw [getSum, List.sum_eq_foldl]

lemma reduceSum1_eq_sum (l : List ℝ) : reduceSum1 l = l.sum := by
  cases l with
  | nil => rfl
  | cons a t =>
    show t.foldl (fun x y => x + y) a = a + t.sum
    rw [List.sum_eq_foldl]
    calc t.foldl (fun x y => x + y) a
        = t.foldl (fun x y => x + y) (a + 0) := by rw [add_zero]
      _ = a + t.foldl (fun x y => x + y) 0 := List.foldl_assoc

lemma tTableVals_pos : ∀ k, k < 30 → (0 : ℚ) < tTableVals.getD k 0 := by
  intro k hk
  interval_cases k <;>
    simp only [tTableVals, List.getD_cons_zero, List.getD_cons_succ] <;> norm_num

lemma tCritical_pos (df : ℤ) : 0 < tCritical df := by
  rw [tCritical]
  set d := (if df = 0 then 1 else df) with hd
  rw [tTableLookup]
  by_cases h : 1 ≤ d ∧ d ≤ 30
  · rw [if_pos h, Option.getD_some]
    exact tTableVals_pos _ (by omega)
  · rw [if_neg h, Option.getD_none]
    norm_num

lemma getStddev_nonneg (arr : List ℝ) : 0 ≤ getStddev arr := by
  rw [getStddev]
  split
  · exact le_refl 0
  · exact Real.sqrt_nonneg _

lemma JSN.div_num_num (a b : ℝ) (hb : b ≠ 0) :
    JSN.div (.num a) (.num b) = .num (a / b) := by
  simp only [JSN.div]
  rw [if_neg hb]

lemma JSN.mul_num_num (a b : ℝ) : JSN.mul (.num a) (.num b) = .num (a * b) := rfl

lemma length_cast_ne_zero {arr : List ℝ} (h : arr ≠ []) : (arr.length : ℝ) ≠ 0 := by
  have : arr.length ≠ 0 := fun hl => h (List.length_eq_zero.mp hl)
  exact_mod_cast this

lemma getMean_nonempty {arr : List ℝ} (h : arr ≠ []) :
    getMean arr = .num (getMeanR arr) := by
  rw [getMean, getMeanR, JSN.div_num_num _ _ (length_cast_ne_zero h)]

lemma getTimings_def (arr : List ℝ) :
    getTimings arr =
      ⟨arr.length, getMean arr,
        jsOrInf (JSN.div
          (JSN.mul (JSN.div (.num (getStddev arr)) (.num (Real.sqrt arr.length)))
            (.num ((tCritical ((arr.length : ℤ) - 1) : ℚ) : ℝ)))
          (getMean arr))⟩ := rfl

lemma sqrt_length_ne_zero {arr : List ℝ} (h : arr ≠ []) :
    Real.sqrt arr.length ≠ 0 := by
  have hpos : (0 : ℝ) < arr.length := by
    have : arr.length ≠ 0 := fun hl => h (List.length_eq_zero.mp hl)
    exact_mod_cast Nat.pos_of_ne_zero this
  exact ne_of_gt (Real.sqrt_pos.mpr hpos)

lemma getTimings_rme {arr : List ℝ} (h : arr ≠ []) :
    (getTimings arr).relativeMarginOfError =
      jsOrInf (JSN.div (.num (moeR arr)) (.num (getMeanR arr))) := by
  rw [getTimings_def, getMean_nonempty h]
  rw [JSN.div_num_num _ _ (sqrt_length_ne_zero h), JSN.mul_num_num, moeR]

lemma moeR_nonneg (arr : List ℝ) : 0 ≤ moeR arr := by
  apply mul_nonneg
  · exact div_nonneg (getStddev_nonneg arr) (Real.sqrt_nonneg _)
  · have := tCritical_pos ((arr.length : ℤ) - 1)
    exact_mod_cast le_of_lt this

lemma rme_cases {arr : List ℝ} (h : arr ≠ []) :
    (getTimings arr).relativeMarginOfError =
      if getMeanR arr = 0 ∨ moeR arr = 0 then .inf
      else .num (moeR arr / getMeanR arr) := by
  rw [getTimings_rme h]
  by_cases hm : getMeanR arr = 0
  · by_cases hmoe : moeR arr = 0
    · simp [JSN.div, jsOrInf, hm, hmoe]
    · have hpos : 0 < moeR arr := lt_of_le_of_ne (moeR_nonneg arr) (Ne.symm hmoe)
      simp [JSN.div, jsOrInf, hm, hmoe, hpos]
  · rw [JSN.div_num_num _ _ hm]
    by_cases hmoe : moeR arr = 0
    · simp [jsOrInf, hm, hmoe]
    · have hq : moeR arr / getMeanR arr ≠ 0 := div_ne_zero hmoe hm
      simp [jsOrInf, hm, hmoe, hq]

lemma getTimings_sampleCount (arr : List ℝ) :
    (getTimings arr).sampleCount = arr.length := rfl

lemma getTimings_meanTime (arr : List ℝ) : (getTimings arr).meanTime = getMean arr := rfl

lemma Timings.ext' {a b : Timings} (h1 : a.sampleCount = b.sampleCount)
    (h2 : a.meanTime = b.meanTime)
    (h3 : a.relativeMarginOfError = b.relativeMarginOfError) : a = b := by
  cases a
  cases b
  simp only [Timings.mk.injEq]
  exact ⟨h1, h2, h3⟩

lemma getSum_replicate (n : ℕ) (v : ℝ) : getSum (List.replicate n v) = n * v := by
  rw [getSum_eq_sum, List.sum_replicate, nsmul_eq_mul]

lemma replicate_ne_nil {n : ℕ} {v : ℝ} (h : n ≠ 0) : List.replicate n v ≠ [] := by
  intro hnil
  exact h (by simpa using congrArg List.length hnil)

lemma getMeanR_replicate (n : ℕ) (v : ℝ) (h : n ≠ 0) :
    getMeanR (List.replicate n v) = v := by
  rw [getMeanR, getSum_replicate, List.length_replicate]
  have hn : (n : ℝ) ≠ 0 := Nat.cast_ne_zero.mpr h
  exact mul_div_cancel_left₀ v hn

lemma getStddev_replicate (n : ℕ) (v : ℝ) (h : n ≠ 0) :
    getStddev (List.replicate n v) = 0 := by
  rw [getStddev]
  rw [if_neg (by simpa using h)]
  have hmap : (List.replicate n v).map (fun x => (x - getMeanR (List.replicate n v)) ^ 2) =
      List.replicate n 0 := by
    rw [List.map_replicate, getMeanR_replicate n v h]
    simp
  rw [hmap, reduceSum1_eq_sum, List.sum_replicate]
  simp

lemma moeR_replicate (n : ℕ) (v : ℝ) (h : n ≠ 0) : moeR (List.replicate n v) = 0 := by
  rw [moeR, getStddev_replicate n v h, zero_div, zero_mul]

lemma getTimings_replicate (n : ℕ) (v : ℝ) (h : n ≠ 0) :
    getTimings (List.replicate n v) = ⟨n, .num v, .inf⟩ := by
  have hne : List.replicate n v ≠ [] := replicate_ne_nil h
  apply Timings.ext'
  · rw [getTimings_sampleCount, List.length_replicate]
  · rw [getTimings_meanTime, getMean_nonempty hne, getMeanR_replicate n v h]
  · rw [rme_cases hne, if_pos (Or.inr (moeR_replicate n v h))]

lemma getStddev_singleton (a : ℝ) : getStddev [a] = 0 := by
  rw [← List.replicate_one]
  exact getStddev_replicate 1 a one_ne_zero

lemma getTimings_nil : getTimings [] = ⟨0, .nan, .inf⟩ := by
  apply Timings.ext'
  · rfl
  · rw [getTimings_meanTime, getMean]
    simp [getSum, JSN.div]
  · rw [getTimings_def]
    simp [getMean, getSum, getStddev, JSN.div, JSN.mul, jsOrInf]

lemma nextIterationCount_first {s : BenchmarkState} (h : s.cycles = 0) :
    nextIterationCount s = .num (orDefault s.config.initialCount INITIAL_ITERATION_COUNT) := by
  simp only [nextIterationCount]
  rw [if_pos h]

lemma nextIterationCount_outOfTime {s : BenchmarkState} (h0 : s.cycles ≠ 0)
    (h1 : remainingTimeOf s ≤ 0) : nextIterationCount s = .num 0 := by
  simp only [nextIterationCount]
  rw [if_neg h0, if_pos h1]

lemma nextIterationCount_converged {s : BenchmarkState} (h0 : s.cycles ≠ 0)
    (h1 : ¬ remainingTimeOf s ≤ 0)
    (h2 : s.timings.relativeMarginOfError.lt (.num TARGET_RELATIVE_MARGIN_OF_ERROR)) :
    nextIterationCount s = .num 0 := by
  simp only [nextIterationCount]
  rw [if_neg h0, if_neg h1, if_pos h2]

lemma nextIterationCount_noSetupBudget {s : BenchmarkState} (h0 : s.cycles ≠ 0)
    (h1 : ¬ remainingTimeOf s ≤ 0)
    (h2 : ¬ s.timings.relativeMarginOfError.lt (.num TARGET_RELATIVE_MARGIN_OF_ERROR))
    (h3 : remainingTimeOf s < meanSetUpTimeOf s) : nextIterationCount s = .num 0 := by
  simp only [nextIterationCount]
  rw [if_neg h0, if_neg h1, if_neg h2, if_pos h3]

lemma nextIterationCount_go {s : BenchmarkState} (h0 : s.cycles ≠ 0)
    (h1 : ¬ remainingTimeOf s ≤ 0)
    (h2 : ¬ s.timings.relativeMarginOfError.lt (.num TARGET_RELATIVE_MARGIN_OF_ERROR))
    (h3 : ¬ remainingTimeOf s < meanSetUpTimeOf s) :
    nextIterationCount s =
      JSN.round (JSN.div (targetNetTimeOf s) (grossMeanTimePerIterationOf s)) := by
  simp only [nextIterationCount]
  rw [if_neg h0, if_neg h1, if_neg h2, if_neg h3]

lemma benchRun_stop {cfg : BenchmarkConfig} {oracle : ℕ → CycleData} {fuel : ℕ}
    {s : BenchmarkState} {samples : List ℝ} {details : List BenchmarkCycleDetails}
    (h : nextIterationCount s = .num 0) :
    benchRun cfg oracle (fuel + 1) s samples details =
      some (mkBenchmarkResult s samples details) := by
  rw [benchRun, h]
  simp

lemma benchRun_go {cfg : BenchmarkConfig} {oracle : ℕ → CycleData} {fuel : ℕ}
    {s : BenchmarkState} {samples : List ℝ} {details : List BenchmarkCycleDetails}
    {x : ℝ} (h : nextIterationCount s = .num x) (hx : x ≠ 0) :
    benchRun cfg oracle (fuel + 1) s samples details =
      benchRun cfg oracle fuel (benchCycleStep cfg oracle s samples x).1
        (benchCycleStep cfg oracle s samples x).2.1
        (details ++ [(benchCycleStep cfg oracle s samples x).2.2]) := by
  rw [benchRun, h]
  simp [hx]

lemma runCycle_async_small {cfg : BenchmarkConfig} {count : ℕ} {c : CycleData}
    (hs : cfg.isSync = false) (hc : count ≤ 10000) :
    runCycle cfg count c =
      ((List.range count).map c.durations, getSum ((List.range count).map c.durations)) := by
  rw [runCycle]
  simp only [hs, Bool.false_eq_true, if_false]
  rw [if_neg (by omega)]

lemma getSum_singleton (a : ℝ) : getSum [a] = a := by
  simp [getSum]

lemma c1State_timings : c1State.timings = ⟨2, .num 1, .inf⟩ :=
  getTimings_replicate 2 1 two_ne_zero

lemma remainingTimeOf_c1State : remainingTimeOf c1State = 29 := by
  simp only [remainingTimeOf, c1State, orDefault, DEFAULT_MAX_TIME,
    INCLUDE_INITIAL_SETUP_IN_MAX_TIME, Bool.false_eq_true, if_false]
  norm_num

lemma nextIterationCount_c1State : nextIterationCount c1State = .num 6 := by
  have hrme : c1State.timings.relativeMarginOfError = .inf := by
    rw [c1State_timings]
  have hms : meanSetUpTimeOf c1State = 0 := by
    simp only [meanSetUpTimeOf, c1State]
    norm_num
  rw [nextIterationCount_go (by simp [c1State]) (by rw [remainingTimeOf_c1State]; norm_num)
    (by rw [hrme]; simp [JSN.lt]) (by rw [remainingTimeOf_c1State, hms]; norm_num)]
  have hef : errorFactorOf c1State = .num 10 := by
    rw [errorFactorOf, hrme]
    simp [JSN.add, JSN.jsmin]
  have htarget : targetNetTimeOf c1State = .num (29 / 10) := by
    rw [targetNetTimeOf, remainingNetTimeWithSafetyMarginOf, hef, remainingTimeOf_c1State, hms]
    rw [JSN.div_num_num _ _ (by norm_num)]
    simp only [JSN.jsmin]
    rw [TARGET_CYCLE_TIME, DEFAULT_MAX_TIME]
    norm_num [min_eq_left]
  have hgross : grossMeanTimePerIterationOf c1State = .num (1 / 2) := by
    rw [grossMeanTimePerIterationOf]
    simp only [c1State]
    rw [JSN.div_num_num _ _ (by norm_num)]
  rw [htarget, hgross, JSN.div_num_num _ _ (by norm_num), JSN.round]
  norm_num

lemma remainingTimeOf_c5State : remainingTimeOf c5State = 29 := by
  simp only [remainingTimeOf, c5State, orDefault, DEFAULT_MAX_TIME,
    INCLUDE_INITIAL_SETUP_IN_MAX_TIME, Bool.false_eq_true, if_false]
  norm_num

lemma nextIterationCount_c5State : nextIterationCount c5State = .inf := by
  have hms : meanSetUpTimeOf c5State = 1 := by
    simp only [meanSetUpTimeOf, c5State]
    norm_num
  rw [nextIterationCount_go (by simp [c5State]) (by rw [remainingTimeOf_c5State]; norm_num)
    (by simp [c5State, JSN.lt]) (by rw [remainingTimeOf_c5State, hms]; norm_num)]
  have hef : errorFactorOf c5State = .num 10 := by
    simp [errorFactorOf, c5State, JSN.add, JSN.jsmin]
  have htarget : targetNetTimeOf c5State = .num (28 / 10) := by
    rw [targetNetTimeOf, remainingNetTimeWithSafetyMarginOf, hef, remainingTimeOf_c5State, hms]
    rw [JSN.div_num_num _ _ (by norm_num)]
    simp only [JSN.jsmin]
    rw [TARGET_CYCLE_TIME, DEFAULT_MAX_TIME]
    norm_num [min_eq_left]
  have hgross : grossMeanTimePerIterationOf c5State = .num 0 := by
    rw [grossMeanTimePerIterationOf]
    simp only [c5State]
    rw [JSN.div_num_num _ _ (by norm_num)]
    norm_num
  rw [htarget, hgross]
  simp only [JSN.div]
  norm_num [JSN.round]

lemma remainingTimeOf_c6State : remainingTimeOf c6State = 9 := by
  simp only [remainingTimeOf, c6State, orDefault, DEFAULT_MAX_TIME,
    INCLUDE_INITIAL_SETUP_IN_MAX_TIME, Bool.false_eq_true, if_false]
  norm_num

lemma nextIterationCount_c6State : nextIterationCount c6State = .num 9 := by
  have hms : meanSetUpTimeOf c6State = 0 := by
    simp only [meanSetUpTimeOf, c6State]
    norm_num
  rw [nextIterationCount_go (by simp [c6State]) (by rw [remainingTimeOf_c6State]; norm_num)
    (by simp [c6State, JSN.lt]) (by rw [remainingTimeOf_c6State, hms]; norm_num)]
  have hef : errorFactorOf c6State = .num 10 := by
    simp [errorFactorOf, c6State, JSN.add, JSN.jsmin]
  have htarget : targetNetTimeOf c6State = .num (9 / 10) := by
    rw [targetNetTimeOf, remainingNetTimeWithSafetyMarginOf, hef, remainingTimeOf_c6State, hms]
    rw [JSN.div_num_num _ _ (by norm_num)]
    simp only [JSN.jsmin]
    rw [TARGET_CYCLE_TIME, DEFAULT_MAX_TIME]
    norm_num [min_eq_left]
  have hgross : grossMeanTimePerIterationOf c6State = .num (1 / 10) := by
    rw [grossMeanTimePerIterationOf]
    simp only [c6State]
    rw [JSN.div_num_num _ _ (by norm_num)]
  rw [htarget, hgross, JSN.div_num_num _ _ (by norm_num), JSN.round]
  norm_num

lemma remainingTimeOf_c8State : remainingTimeOf c8State = 99 := by
  simp only [remainingTimeOf, c8State, orDefault, DEFAULT_MAX_TIME,
    INCLUDE_INITIAL_SETUP_IN_MAX_TIME, Bool.false_eq_true, if_false]
  norm_num

lemma errorFactorOf_c8State : errorFactorOf c8State = .num 2 := by
  simp only [errorFactorOf, c8State, JSN.add, JSN.jsmin]
  norm_num

lemma meanSetUpTimeOf_c8State : meanSetUpTimeOf c8State = 0 := by
  simp only [meanSetUpTimeOf, c8State]
  norm_num

lemma targetNetTimeOf_c8State : targetNetTimeOf c8State = .num 3 := by
  rw [targetNetTimeOf, remainingNetTimeWithSafetyMarginOf, errorFactorOf_c8State,
    remainingTimeOf_c8State, meanSetUpTimeOf_c8State]
  rw [JSN.div_num_num _ _ (by norm_num)]
  simp only [JSN.jsmin]
  rw [TARGET_CYCLE_TIME, DEFAULT_MAX_TIME]
  norm_num [min_eq_right]

lemma targetNetTimeSpec_c8State : targetNetTimeSpec c8State = .num 10 := by
  rw [targetNetTimeSpec, remainingNetTimeWithSafetyMarginOf, errorFactorOf_c8State,
    remainingTimeOf_c8State, meanSetUpTimeOf_c8State]
  rw [JSN.div_num_num _ _ (by norm_num)]
  simp only [JSN.jsmin, c8State, orDefault]
  norm_num [min_eq_right]

lemma nextIterationCount_c8State : nextIterationCount c8State = .num 3 := by
  rw [nextIterationCount_go (by simp [c8State]) (by rw [remainingTimeOf_c8State]; norm_num)
    (by simp [c8State, JSN.lt, TARGET_RELATIVE_MARGIN_OF_ERROR]; norm_num)
    (by rw [remainingTimeOf_c8State, meanSetUpTimeOf_c8State]; norm_num)]
  have hgross : grossMeanTimePerIterationOf c8State = .num 1 := by
    rw [grossMeanTimePerIterationOf]
    simp only [c8State]
    rw [JSN.div_num_num _ _ (by norm_num)]
    norm_num
  rw [targetNetTimeOf_c8State, hgross, JSN.div_num_num _ _ (by norm_num), JSN.round]
  norm_num

lemma benchCycleStep_cycles (cfg : BenchmarkConfig) (oracle : ℕ → CycleData)
    (s : BenchmarkState) (samples : List ℝ) (x : ℝ) :
    (benchCycleStep cfg oracle s samples x).1.cycles = s.cycles + 1 := rfl

lemma benchCycleStep_config (cfg : BenchmarkConfig) (oracle : ℕ → CycleData)
    (s : BenchmarkState) (samples : List ℝ) (x : ℝ) :
    (benchCycleStep cfg oracle s samples x).1.config = s.config := rfl

lemma benchCycleStep_elapsedTime (cfg : BenchmarkConfig) (oracle : ℕ → CycleData)
    (s : BenchmarkState) (samples : List ℝ) (x : ℝ) :
    (benchCycleStep cfg oracle s samples x).1.elapsedTime =
      s.elapsedTimeForInitialSetUp + s.elapsedCycleGrossTime +
        ((oracle s.cycles).overheadTime +
          (runCycle cfg (⌈x⌉).toNat (oracle s.cycles)).2) := rfl

lemma benchCycleStep_setUp (cfg : BenchmarkConfig) (oracle : ℕ → CycleData)
    (s : BenchmarkState) (samples : List ℝ) (x : ℝ) :
    (benchCycleStep cfg oracle s samples x).1.elapsedTimeForInitialSetUp =
      s.elapsedTimeForInitialSetUp := rfl

lemma benchCycleStep_samples (cfg : BenchmarkConfig) (oracle : ℕ → CycleData)
    (s : BenchmarkState) (samples : List ℝ) (x : ℝ) :
    (benchCycleStep cfg oracle s samples x).2.1 =
      samples ++ (runCycle cfg (⌈x⌉).toNat (oracle s.cycles)).1 := rfl

lemma runCycle_one_net {cfg : BenchmarkConfig} {c : CycleData} (hs : cfg.isSync = false) :
    (runCycle cfg ((⌈(1 : ℝ)⌉).toNat) c).2 = c.durations 0 := by
  have hceil : (⌈(1 : ℝ)⌉).toNat = 1 := by norm_num
  rw [hceil, runCycle_async_small hs (by norm_num)]
  rw [show List.range 1 = [0] from rfl]
  simp [getSum_singleton]

lemma benchmark_neg_maxTime (m setup : ℝ) (oracle : ℕ → CycleData) (hm : m < 0)
    (hov : 0 ≤ (oracle 0).overheadTime) (hdur : 0 ≤ (oracle 0).durations 0) :
    (benchmark ⟨false, some m, some 1⟩ setup oracle 2).map (fun r => r.cycles) = some 1 := by
  rw [benchmark, show (2 : ℕ) = 1 + 1 from rfl]
  have h0 : nextIterationCount
      { elapsedTime := 0, elapsedNetTime := 0, elapsedTimeForInitialSetUp := setup,
        cycles := 0, iterationCount := 0, elapsedCycleGrossTime := 0,
        config := (⟨false, some m, some 1⟩ : BenchmarkConfig),
        timings := getTimings [] } = .num 1 := by
    rw [nextIterationCount_first rfl]
    norm_num [orDefault]
  rw [benchRun_go h0 one_ne_zero]
  have h1 : nextIterationCount
      (benchCycleStep ⟨false, some m, some 1⟩ oracle
        { elapsedTime := 0, elapsedNetTime := 0, elapsedTimeForInitialSetUp := setup,
          cycles := 0, iterationCount := 0, elapsedCycleGrossTime := 0,
          config := (⟨false, some m, some 1⟩ : BenchmarkConfig),
          timings := getTimings [] } [] 1).1 = .num 0 := by
    apply nextIterationCount_outOfTime
    · rw [benchCycleStep_cycles]
      norm_num
    · rw [remainingTimeOf]
      simp only [benchCycleStep_config, benchCycleStep_elapsedTime, benchCycleStep_setUp,
        INCLUDE_INITIAL_SETUP_IN_MAX_TIME, Bool.false_eq_true, if_false, orDefault]
      rw [if_neg (ne_of_lt hm)]
      have hnet : (runCycle ⟨false, some m, some 1⟩ ((⌈(1 : ℝ)⌉).toNat) (oracle 0)).2 =
          (oracle 0).durations 0 := runCycle_one_net rfl
      simp only [hnet]
      linarith
  rw [show (1 : ℕ) = 0 + 1 from rfl, benchRun_stop h1]
  simp [mkBenchmarkResult]

lemma JSN.div_nan_left (x : JSN) : JSN.div .nan x = .nan := by
  cases x <;> rfl

lemma JSN.div_nan_right (x : JSN) : JSN.div x .nan = .nan := by
  cases x <;> rfl

lemma TARGET_CYCLE_TIME_nonneg : (0 : ℝ) ≤ TARGET_CYCLE_TIME := by
  rw [TARGET_CYCLE_TIME, DEFAULT_MAX_TIME]
  norm_num

lemma JSN.div_zero_zero : JSN.div (.num 0) (.num 0) = .nan := by
  simp [JSN.div]

lemma JSN.div_num_zero_pos (a : ℝ) (ha : 0 < a) : JSN.div (.num a) (.num 0) = .inf := by
  simp only [JSN.div, if_true]
  rw [if_neg (ne_of_gt ha), if_pos ha]

lemma JSN.div_num_inf (a : ℝ) : JSN.div (.num a) .inf = .num 0 := rfl

lemma notNeg_round_div (t g i : ℝ) (ht : 0 ≤ t) (hg : 0 ≤ g) (hi : 0 ≤ i) :
    (JSN.round (JSN.div (.num t) (JSN.div (.num g) (.num i)))).notNeg := by
  by_cases hi0 : i = 0
  · subst hi0
    by_cases hg0 : g = 0
    · subst hg0
      rw [JSN.div_zero_zero, JSN.div_nan_right]
      trivial
    · rw [JSN.div_num_zero_pos g (lt_of_le_of_ne hg (Ne.symm hg0)), JSN.div_num_inf]
      show (0 : ℝ) ≤ ((⌊(0 : ℝ) + 1 / 2⌋ : ℤ) : ℝ)
      norm_num
  · rw [JSN.div_num_num g i hi0]
    have hipos : 0 < i := lt_of_le_of_ne hi (Ne.symm hi0)
    have hgi : 0 ≤ g / i := div_nonneg hg (le_of_lt hipos)
    by_cases hq : g / i = 0
    · rw [hq]
      by_cases ht0 : t = 0
      · subst ht0
        rw [JSN.div_zero_zero]
        trivial
      · rw [JSN.div_num_zero_pos t (lt_of_le_of_ne ht (Ne.symm ht0))]
        trivial
    · rw [JSN.div_num_num t _ hq]
      show (0 : ℝ) ≤ ((⌊t / (g / i) + 1 / 2⌋ : ℤ) : ℝ)
      have hnn : (0 : ℝ) ≤ t / (g / i) := div_nonneg ht (lt_of_le_of_ne hgi (Ne.symm hq)).le
      have hfl : (0 : ℤ) ≤ ⌊t / (g / i) + 1 / 2⌋ := by
        apply Int.floor_nonneg.mpr
        linarith
      exact_mod_cast hfl

lemma targetNetTime_go {s : BenchmarkState}
    (h2 : ¬ s.timings.relativeMarginOfError.lt (.num TARGET_RELATIVE_MARGIN_OF_ERROR))
    (h3 : ¬ remainingTimeOf s < meanSetUpTimeOf s) :
    (s.timings.relativeMarginOfError = .nan ∧ targetNetTimeOf s = .nan) ∨
    (∃ t : ℝ, 0 ≤ t ∧ targetNetTimeOf s = .num t) := by
  have hrm : 0 ≤ remainingTimeOf s - meanSetUpTimeOf s := by linarith [not_lt.mp h3]
  cases hrme : s.timings.relativeMarginOfError with
  | nan =>
    left
    refine ⟨rfl, ?_⟩
    have hef : errorFactorOf s = .nan := by
      rw [errorFactorOf, hrme]
      rfl
    rw [targetNetTimeOf, remainingNetTimeWithSafetyMarginOf, hef, JSN.div_nan_right]
    rfl
  | ninf =>
    exact absurd (by rw [hrme]; trivial) h2
  | inf =>
    right
    have hef : errorFactorOf s = .num 10 := by
      rw [errorFactorOf, hrme]
      rfl
    refine ⟨min ((remainingTimeOf s - meanSetUpTimeOf s) / 10) TARGET_CYCLE_TIME,
      le_min (by positivity) TARGET_CYCLE_TIME_nonneg, ?_⟩
    rw [targetNetTimeOf, remainingNetTimeWithSafetyMarginOf, hef,
      JSN.div_num_num _ _ (by norm_num)]
    rfl
  | num r =>
    right
    have hr : TARGET_RELATIVE_MARGIN_OF_ERROR ≤ r := by
      by_contra hlt
      exact h2 (by rw [hrme]; exact lt_of_not_le hlt)
    have hr' : (0.02 : ℝ) ≤ r := by
      rw [TARGET_RELATIVE_MARGIN_OF_ERROR] at hr
      exact hr
    have hepos : 0 < min (r + 1) 10 := lt_min (by linarith) (by norm_num)
    have hef : errorFactorOf s = .num (min (r + 1) 10) := by
      rw [errorFactorOf, hrme]
      rfl
    refine ⟨min ((remainingTimeOf s - meanSetUpTimeOf s) / min (r + 1) 10) TARGET_CYCLE_TIME,
      le_min (div_nonneg hrm hepos.le) TARGET_CYCLE_TIME_nonneg, ?_⟩
    rw [targetNetTimeOf, remainingNetTimeWithSafetyMarginOf, hef,
      JSN.div_num_num _ _ (ne_of_gt hepos)]
    rfl

lemma tCritical_in_range {df : ℤ} (h1 : 1 ≤ df) (h30 : df ≤ 30) :
    tCritical df = tTableVals.getD (df - 1).toNat 0 := by
  rw [tCritical, if_neg (by omega), tTableLookup, if_pos ⟨h1, h30⟩, Option.getD_some]

lemma tCritical_out_of_range {df : ℤ} (h : df < 0 ∨ 30 < df) : tCritical df = 1.96 := by
  rw [tCritical, if_neg (by omega), tTableLookup, if_neg (by omega), Option.getD_none]

lemma tCritical_zero : tCritical 0 = 12.706 := by
  rw [tCritical, if_pos rfl, tTableLookup, if_pos (by omega), Option.getD_some]
  norm_num [tTableVals]

lemma getStddev_two (a b m : ℝ) (hm : getMeanR [a, b] = m)
    (h : ((a - m) ^ 2 + (b - m) ^ 2) / 2 = 1) : getStddev [a, b] = 1 := by
  rw [getStddev, if_neg (by norm_num)]
  simp only [hm, List.map_cons, List.map_nil]
  rw [reduceSum1_eq_sum]
  simp only [List.sum_cons, List.sum_nil, List.length_cons, List.length_nil]
  rw [show ((a - m) ^ 2 + ((b - m) ^ 2 + 0)) / ((0 + 1 + 1 : ℕ) : ℝ) = 1 by push_cast; linarith]
  exact Real.sqrt_one

lemma getMeanR_02 : getMeanR [(0 : ℝ), 2] = 1 := by
  norm_num [getMeanR, getSum]

lemma getStddev_02 : getStddev [(0 : ℝ), 2] = 1 :=
  getStddev_two 0 2 1 getMeanR_02 (by norm_num)

lemma getMeanR_13 : getMeanR [(1 : ℝ), 3] = 2 := by
  norm_num [getMeanR, getSum]

lemma getStddev_13 : getStddev [(1 : ℝ), 3] = 1 :=
  getStddev_two 1 3 2 getMeanR_13 (by norm_num)

lemma moeR_13_pos : 0 < moeR [(1 : ℝ), 3] := by
  rw [moeR, getStddev_13]
  have hc : (0 : ℝ) < (tCritical ((([(1 : ℝ), 3]).length : ℤ) - 1) : ℚ) := by
    exact_mod_cast tCritical_pos _
  apply mul_pos _ hc
  apply div_pos one_pos
  apply Real.sqrt_pos.mpr
  norm_num

/-! ## Claim theorems -/

/-- C4, counterexample: the claim fails on both boundaries of the
lookup.  A sample of exactly 31 observations has `df = 30`, which is
still inside the table (critical value `2.042`), not `1.96` as the
claim's "more than 30 observations" reading asserts; and for negative
degrees of freedom (`df = -1`, the empty sample list) the lookup misses
and falls back to `1.96`, not to the `df = 1` entry `12.706` the claim
asserts for all `df ≤ 0`. -/
theorem c4_ttable_counterexample :
    tCritical (((List.replicate 31 (1 : ℝ)).length : ℤ) - 1) = 2.042 ∧
    tCritical (((List.replicate 31 (1 : ℝ)).length : ℤ) - 1) ≠ 1.96 ∧
    tCritical (-1) = 1.96 ∧
    tCritical (-1) ≠ 12.706 := by
  have h31 : ((List.replicate 31 (1 : ℝ)).length : ℤ) - 1 = 30 := by simp
  rw [h31]
  have e30 : tCritical 30 = 2.042 := by
    rw [tCritical_in_range (by omega) (by omega)]
    rfl
  have em1 : tCritical (-1) = 1.96 := tCritical_out_of_range (Or.inl (by omega))
  exact ⟨e30, by rw [e30]; norm_num, em1, by rw [em1]; norm_num⟩

/-- C4, amended: a sample of exactly 5 observations (`df = 4`) uses the
critical value `2.776`; degrees of freedom above 30 — i.e. more than 31
samples — use `1.96`; exactly 31 samples (`df = 30`) still hit the
table at `2.042`; `df = 0` is treated as `df = 1` (`12.706`); negative
`df` (empty sample list) misses the table and uses `1.96`. -/
theorem c4_ttable_amended :
    (∀ s : List ℝ, s.length = 5 → tCritical ((s.length : ℤ) - 1) = 2.776) ∧
    (∀ df : ℤ, 30 < df → tCritical df = 1.96) ∧
    (∀ s : List ℝ, 31 < s.length → tCritical ((s.length : ℤ) - 1) = 1.96) ∧
    tCritical 30 = 2.042 ∧
    tCritical 0 = 12.706 ∧
    (∀ df : ℤ, df < 0 → tCritical df = 1.96) := by
  refine ⟨?_, ?_, ?_, ?_, tCritical_zero, ?_⟩
  · intro s h
    rw [h, show (((5 : ℕ) : ℤ) - 1) = 4 by norm_num,
      tCritical_in_range (by omega) (by omega)]
    rfl
  · intro df h
    exact tCritical_out_of_range (Or.inr h)
  · intro s h
    have : (31 : ℤ) < (s.length : ℤ) := by exact_mod_cast h
    exact tCritical_out_of_range (Or.inr (by omega))
  · rw [tCritical_in_range (by omega) (by omega)]
    rfl
  · intro df h
    exact tCritical_out_of_range (Or.inl h)

/-- Witness for the amended C4 at concrete inputs: a 5-sample list, the
degrees of freedom 31, a 32-sample list and the degrees of freedom -2. -/
theorem c4_ttable_witness :
    tCritical (((List.replicate 5 (0 : ℝ)).length : ℤ) - 1) = 2.776 ∧
    tCritical 31 = 1.96 ∧
    tCritical (((List.replicate 32 (0 : ℝ)).length : ℤ) - 1) = 1.96 ∧
    tCritical (-2) = 1.96 :=
  ⟨c4_ttable_amended.1 _ (by simp), c4_ttable_amended.2.1 31 (by omega),
   c4_ttable_amended.2.2.1 _ (by simp), c4_ttable_amended.2.2.2.2.2 (-2) (by omega)⟩

/-- C9, confirmed: for every non-empty sample sequence, `getStddev` is
the population standard deviation — the square root of the sum of
squared deviations from the mean divided by `n` (not `n - 1`).  The two
closed conjuncts exhibit the difference on `[0, 2]`: dividing by `n`
gives `1`, dividing by `n - 1` would give `sqrt 2 ≠ 1`. -/
theorem c9_population_stddev :
    (∀ arr : List ℝ, arr ≠ [] →
      getStddev arr =
        Real.sqrt ((arr.map fun x => (x - arr.sum / arr.length) ^ 2).sum / arr.length)) ∧
    getStddev [0, 2] = 1 ∧
    Real.sqrt ((((0 : ℝ) - 1) ^ 2 + ((2 : ℝ) - 1) ^ 2) / (2 - 1)) ≠ 1 := by
  refine ⟨?_, getStddev_02, ?_⟩
  · intro arr h
    rw [getStddev, if_neg (fun hl => h (List.length_eq_zero.mp hl)), reduceSum1_eq_sum]
    simp only [getMeanR, getSum_eq_sum]
  · rw [show (((0 : ℝ) - 1) ^ 2 + ((2 : ℝ) - 1) ^ 2) / (2 - 1) = 2 by norm_num]
    intro h
    have h2 := Real.sq_sqrt (show (0 : ℝ) ≤ 2 by norm_num)
    rw [h] at h2
    norm_num at h2

/-- Witness for C9 at the concrete list `[0, 2]`. -/
theorem c9_population_stddev_witness :
    getStddev [(0 : ℝ), 2] =
      Real.sqrt ((([(0 : ℝ), 2]).map fun x =>
        (x - ([(0 : ℝ), 2]).sum / ([(0 : ℝ), 2]).length) ^ 2).sum / ([(0 : ℝ), 2]).length) :=
  c9_population_stddev.1 [0, 2] (by simp)

/-- C1, counterexample: for the zero-variance two-sample list `[1, 1]`
(constant positive value), the estimator's relative margin of error is
`Infinity`, not `0` — the JS expression `moe / mean || Infinity` treats
the exact-zero ratio as falsy — and in the state reached after such a
first cycle (state `c1State`, with 29 s of budget left) the scheduler
returns 6, not 0: the 2% precision target is not met and the run is not
stopped after one more cycle. -/
theorem c1_zero_variance_counterexample :
    (getTimings (List.replicate 2 (1 : ℝ))).relativeMarginOfError = JSN.inf ∧
    JSN.inf ≠ JSN.num 0 ∧
    nextIterationCount c1State = JSN.num 6 ∧
    JSN.num (6 : ℝ) ≠ JSN.num 0 := by
  refine ⟨?_, by simp, nextIterationCount_c1State, by norm_num [JSN.num.injEq]⟩
  rw [getTimings_replicate 2 1 two_ne_zero]

/-- C1, amended: for every sample sequence of length at least 2 holding
one constant positive value, the standard deviation and the margin of
error are `0`, but `relativeMarginOfError` is `+Infinity` (the
`|| Infinity` guard replaces the zero ratio), so the 2% target is not
met (`Infinity < 0.02` is false) and the scheduler does not stop for
precision: in the state after such a first cycle it schedules another
cycle (6 iterations in `c1State`); the run only ends when the time
budget is exhausted. -/
theorem c1_zero_variance_amended (n : ℕ) (v : ℝ) (h2 : 2 ≤ n) (hv : 0 < v) :
    getStddev (List.replicate n v) = 0 ∧
    moeR (List.replicate n v) = 0 ∧
    (getTimings (List.replicate n v)).relativeMarginOfError = JSN.inf ∧
    ¬ (getTimings (List.replicate n v)).relativeMarginOfError.lt
        (.num TARGET_RELATIVE_MARGIN_OF_ERROR) ∧
    nextIterationCount c1State = JSN.num 6 := by
  have hn : n ≠ 0 := by omega
  refine ⟨getStddev_replicate n v hn, moeR_replicate n v hn, ?_, ?_,
    nextIterationCount_c1State⟩
  · rw [getTimings_replicate n v hn]
  · rw [getTimings_replicate n v hn]
    simp [JSN.lt]

/-- Witness for the amended C1 at `n = 2`, `v = 1`. -/
theorem c1_zero_variance_witness :
    getStddev (List.replicate 2 (1 : ℝ)) = 0 ∧
    moeR (List.replicate 2 (1 : ℝ)) = 0 ∧
    (getTimings (List.replicate 2 (1 : ℝ))).relativeMarginOfError = JSN.inf ∧
    ¬ (getTimings (List.replicate 2 (1 : ℝ))).relativeMarginOfError.lt
        (.num TARGET_RELATIVE_MARGIN_OF_ERROR) ∧
    nextIterationCount c1State = JSN.num 6 :=
  c1_zero_variance_amended 2 1 (by norm_num) (by norm_num)

/-- C3, counterexample: the claim asserts `relativeMarginOfError =
marginOfError / meanTime` for every sample sequence.  On the
zero-variance list `[1, 1]` the quotient is `0` (margin of error `0`,
mean `1`) but the returned value is `Infinity`: JS `moe / mean ||
Infinity` replaces the falsy `0` by `Infinity`. -/
theorem c3_rme_counterexample :
    moeR [(1 : ℝ), 1] / getMeanR [(1 : ℝ), 1] = 0 ∧
    (getTimings [(1 : ℝ), 1]).relativeMarginOfError = JSN.inf ∧
    JSN.inf ≠ JSN.num (moeR [(1 : ℝ), 1] / getMeanR [(1 : ℝ), 1]) := by
  have hrep : [(1 : ℝ), 1] = List.replicate 2 (1 : ℝ) := rfl
  have hmoe : moeR [(1 : ℝ), 1] = 0 := by
    rw [hrep]
    exact moeR_replicate 2 1 two_ne_zero
  refine ⟨by rw [hmoe, zero_div], ?_, by simp⟩
  rw [hrep, getTimings_replicate 2 1 two_ne_zero]

/-- C3, amended: `relativeMarginOfError` equals the finite quotient
`marginOfError / meanTime` whenever that quotient is a nonzero finite
number; it is `+Infinity` whenever the sequence is empty or a
singleton, the mean is zero, or the margin of error is zero (so also
for zero-variance sequences) — the JS `|| Infinity` maps `0` and `NaN`
there.  The degenerate cases are ordinary values of the returned
`Timings`, not errors. -/
theorem c3_rme_amended (arr : List ℝ) :
    (arr ≠ [] → getMeanR arr ≠ 0 → moeR arr ≠ 0 →
      (getTimings arr).relativeMarginOfError = .num (moeR arr / getMeanR arr)) ∧
    (arr = [] ∨ arr.length = 1 ∨ getMeanR arr = 0 ∨ moeR arr = 0 →
      (getTimings arr).relativeMarginOfError = .inf) := by
  constructor
  · intro h hm hmoe
    rw [rme_cases h, if_neg (by tauto)]
  · intro hdeg
    rcases hdeg with h | h | h | h
    · subst h
      rw [getTimings_nil]
    · obtain ⟨a, ha⟩ := List.length_eq_one.mp h
      subst ha
      have hmoe : moeR [a] = 0 := by
        rw [moeR, getStddev_singleton, zero_div, zero_mul]
      rw [rme_cases (by simp), if_pos (Or.inr hmoe)]
    · by_cases hnil : arr = []
      · subst hnil
        rw [getTimings_nil]
      · rw [rme_cases hnil, if_pos (Or.inl h)]
    · by_cases hnil : arr = []
      · subst hnil
        rw [getTimings_nil]
      · rw [rme_cases hnil, if_pos (Or.inr h)]

/-- Witness for the amended C3: the list `[1, 3]` (nonzero variance and
mean) takes the finite branch, the empty list the `Infinity` branch. -/
theorem c3_rme_witness :
    (getTimings [(1 : ℝ), 3]).relativeMarginOfError =
      .num (moeR [(1 : ℝ), 3] / getMeanR [(1 : ℝ), 3]) ∧
    (getTimings ([] : List ℝ)).relativeMarginOfError = .inf :=
  ⟨(c3_rme_amended [1, 3]).1 (by simp) (by rw [getMeanR_13]; norm_num)
      (ne_of_gt moeR_13_pos),
    (c3_rme_amended []).2 (Or.inl rfl)⟩

/-- C7, confirmed: merging two results concatenates the sample and
cycle-detail sequences, sums the counters and times, and takes the mean
and relative margin of error that the estimator computes on the
concatenated sample sequence — merging is the same aggregate a single
longer run over the combined samples would report. -/
theorem c7_add_merges (r1 r2 : BenchmarkResult) :
    (BenchmarkResult.add [r1, r2]).samples = r1.samples ++ r2.samples ∧
    (BenchmarkResult.add [r1, r2]).cycleDetails = r1.cycleDetails ++ r2.cycleDetails ∧
    (BenchmarkResult.add [r1, r2]).cycles = r1.cycles + r2.cycles ∧
    (BenchmarkResult.add [r1, r2]).iterationCount = r1.iterationCount + r2.iterationCount ∧
    (BenchmarkResult.add [r1, r2]).elapsedTime = r1.elapsedTime + r2.elapsedTime ∧
    (BenchmarkResult.add [r1, r2]).setUpTime = r1.setUpTime + r2.setUpTime ∧
    (BenchmarkResult.add [r1, r2]).meanTime =
      (getTimings (r1.samples ++ r2.samples)).meanTime ∧
    (BenchmarkResult.add [r1, r2]).relativeMarginOfError =
      (getTimings (r1.samples ++ r2.samples)).relativeMarginOfError := by
  simp [BenchmarkResult.add]

lemma runCycle_batch {cfg : BenchmarkConfig} {count : ℕ} {c : CycleData}
    (h : cfg.isSync = true ∨ 10000 < count) :
    runCycle cfg count c =
      ([getSum ((List.range count).map c.durations) / count],
        getSum ((List.range count).map c.durations)) := by
  rcases h with hs | hc
  · simp [runCycle, hs]
  · by_cases hs : cfg.isSync
    · simp [runCycle, hs]
    · simp [runCycle, hs, hc]

/-- C10, confirmed: per executed cycle, an asynchronous configuration
with an iteration count of at most 10000 records exactly `count`
samples, one per-iteration duration each (`cycleDetailed`); otherwise
(synchronous, or count above 10000) exactly one sample, equal to
`netTime / count`, is recorded (`cycleSync` / `cycle`); in all cases the
net time is the sum of the iterations' durations. -/
theorem c10_samples_per_cycle (cfg : BenchmarkConfig) (count : ℕ) (c : CycleData)
    (h : 0 < count) :
    (cfg.isSync = false → count ≤ 10000 →
      (runCycle cfg count c).1 = (List.range count).map c.durations ∧
      (runCycle cfg count c).1.length = count) ∧
    (cfg.isSync = true ∨ 10000 < count →
      (runCycle cfg count c).1 = [(runCycle cfg count c).2 / count] ∧
      (runCycle cfg count c).1.length = 1) ∧
    (runCycle cfg count c).2 = ((List.range count).map c.durations).sum := by
  refine ⟨?_, ?_, ?_⟩
  · intro hs hc
    rw [runCycle_async_small hs hc]
    exact ⟨rfl, by simp⟩
  · intro hor
    rw [runCycle_batch hor]
    exact ⟨rfl, rfl⟩
  · by_cases hs : cfg.isSync
    · rw [runCycle_batch (Or.inl hs), getSum_eq_sum]
    · by_cases hc : 10000 < count
      · rw [runCycle_batch (Or.inr hc), getSum_eq_sum]
      · rw [runCycle_async_small (by simpa using hs) (by omega), getSum_eq_sum]

/-- Witness for C10: an asynchronous cycle of 2 iterations records both
durations; a synchronous cycle of 3 iterations records the single
sample `netTime / 3`. -/
theorem c10_samples_per_cycle_witness :
    ((runCycle ⟨false, none, none⟩ 2 ⟨0, fun i => (i : ℝ)⟩).1 =
        (List.range 2).map (fun i => (i : ℝ)) ∧
      (runCycle ⟨false, none, none⟩ 2 ⟨0, fun i => (i : ℝ)⟩).1.length = 2) ∧
    ((runCycle ⟨true, none, none⟩ 3 ⟨0, fun i => (i : ℝ)⟩).1 =
        [(runCycle ⟨true, none, none⟩ 3 ⟨0, fun i => (i : ℝ)⟩).2 / ((3 : ℕ) : ℝ)] ∧
      (runCycle ⟨true, none, none⟩ 3 ⟨0, fun i => (i : ℝ)⟩).1.length = 1) :=
  ⟨(c10_samples_per_cycle ⟨false, none, none⟩ 2 ⟨0, fun i => (i : ℝ)⟩ (by norm_num)).1
      rfl (by norm_num),
    (c10_samples_per_cycle ⟨true, none, none⟩ 3 ⟨0, fun i => (i : ℝ)⟩ (by norm_num)).2.1
      (Or.inl rfl)⟩

/-- C2, counterexample: the configuration `maxTime = -5` (an invalid,
non-positive budget) is not rejected: the run executes its first cycle
and returns an ordinary result with one cycle, rather than failing
before the first cycle as the claim asserts. -/
theorem c2_no_validation_counterexample :
    (benchmark ⟨false, some (-5), some 1⟩ 0 constOracle 2).map (fun r => r.cycles) =
      some 1 ∧ (1 : ℕ) ≠ 0 :=
  ⟨benchmark_neg_maxTime (-5) 0 constOracle (by norm_num)
      (by norm_num [constOracle]) (by norm_num [constOracle]),
    by norm_num⟩

/-- C2, amended: no configuration validation exists.  A zero `maxTime`
or `initialCount` silently falls back to the default (30 s / 1) because
`0` is falsy in `x || default`; a negative `maxTime` is used as-is: the
first cycle still always runs (the scheduler returns `initialCount` on
the first call unconditionally) and the run then stops and completes
normally with exactly one cycle. -/
theorem c2_no_validation_amended (m setup : ℝ) (oracle : ℕ → CycleData) (hm : m < 0)
    (hov : 0 ≤ (oracle 0).overheadTime) (hdur : 0 ≤ (oracle 0).durations 0) :
    (benchmark ⟨false, some m, some 1⟩ setup oracle 2).map (fun r => r.cycles) = some 1 ∧
    orDefault (some 0) DEFAULT_MAX_TIME = DEFAULT_MAX_TIME ∧
    orDefault (some 0) INITIAL_ITERATION_COUNT = INITIAL_ITERATION_COUNT ∧
    (∀ s : BenchmarkState, s.cycles = 0 →
      nextIterationCount s = .num (orDefault s.config.initialCount INITIAL_ITERATION_COUNT)) :=
  ⟨benchmark_neg_maxTime m setup oracle hm hov hdur,
    by simp [orDefault], by simp [orDefault],
    fun s h => nextIterationCount_first h⟩

/-- Witness for the amended C2 at `maxTime = -3`, set-up time 2, and the
constant oracle. -/
theorem c2_no_validation_witness :
    (benchmark ⟨false, some (-3), some 1⟩ 2 constOracle 2).map (fun r => r.cycles) =
      some 1 :=
  (c2_no_validation_amended (-3) 2 constOracle (by norm_num)
    (by norm_num [constOracle]) (by norm_num [constOracle])).1

/-- C6, counterexample: in `c6State` the budget `maxTime = 10` is
smaller than the one-time set-up (10 s) plus the first cycle's gross
time (1 s), yet the scheduler does not return 0 after the first cycle:
the set-up time is refunded to the budget (`INCLUDE_INITIAL_SETUP_IN_
MAX_TIME = false`), leaving 9 s, and 9 more iterations are scheduled. -/
theorem c6_budget_counterexample :
    orDefault c6State.config.maxTime DEFAULT_MAX_TIME <
      c6State.elapsedTimeForInitialSetUp + c6State.elapsedCycleGrossTime ∧
    nextIterationCount c6State = JSN.num 9 ∧
    JSN.num (9 : ℝ) ≠ JSN.num 0 := by
  refine ⟨?_, nextIterationCount_c6State, by norm_num [JSN.num.injEq]⟩
  simp only [c6State, orDefault]
  norm_num [DEFAULT_MAX_TIME]

/-- C6, amended: the first cycle always runs (on the first call the
scheduler returns `initialCount` regardless of budget), and after it
the scheduler returns 0 precisely when the refunded budget is gone:
one-time set-up time is given back, so the stop after one cycle happens
when `maxTime` does not exceed the first cycle's gross time —
`maxTime < setup + first cycle` alone does not make it stop. -/
theorem c6_budget_amended :
    (∀ s : BenchmarkState, s.cycles = 0 →
      nextIterationCount s = .num (orDefault s.config.initialCount INITIAL_ITERATION_COUNT)) ∧
    (∀ (s : BenchmarkState) (m : ℝ), s.config.maxTime = some m → m ≠ 0 → s.cycles ≠ 0 →
      s.elapsedTime = s.elapsedTimeForInitialSetUp + s.elapsedCycleGrossTime →
      m ≤ s.elapsedCycleGrossTime →
      nextIterationCount s = .num 0) := by
  refine ⟨fun s h => nextIterationCount_first h, ?_⟩
  intro s m hcfg hm0 hc helapsed hle
  apply nextIterationCount_outOfTime hc
  simp only [remainingTimeOf, hcfg, orDefault, INCLUDE_INITIAL_SETUP_IN_MAX_TIME,
    Bool.false_eq_true, if_false]
  rw [if_neg hm0, helapsed]
  linarith

/-- Witness for the amended C6 at `c6StopState`
(`maxTime = 1/2 ≤ 1 =` gross time of the first cycle). -/
theorem c6_budget_witness : nextIterationCount c6StopState = .num 0 :=
  c6_budget_amended.2 c6StopState (1 / 2) rfl (by norm_num)
    (by norm_num [c6StopState]) (by norm_num [c6StopState]) (by norm_num [c6StopState])

lemma grossMeanTimePerIterationOf_c8State :
    grossMeanTimePerIterationOf c8State = .num 1 := by
  rw [grossMeanTimePerIterationOf]
  simp only [c8State]
  rw [JSN.div_num_num _ _ (by norm_num)]
  norm_num

/-- C8, counterexample: the cap on the target net time is the constant
`TARGET_CYCLE_TIME = DEFAULT_MAX_TIME / 10 = 3` seconds, not one tenth
of the running configuration's own `maxTime`.  In `c6State`'s sibling
`c8State` (`maxTime = 100`, 99 s remaining, error factor 2) the code's
target is `min(49.5, 3) = 3` and the scheduler returns 3 iterations,
while the claim's cap `maxTime / 10 = 10` would give target `10` and 10
iterations. -/
theorem c8_cap_counterexample :
    targetNetTimeOf c8State = .num 3 ∧
    targetNetTimeSpec c8State = .num 10 ∧
    JSN.num (3 : ℝ) ≠ JSN.num 10 ∧
    nextIterationCount c8State = .num 3 ∧
    JSN.round (JSN.div (targetNetTimeSpec c8State)
      (grossMeanTimePerIterationOf c8State)) = .num 10 := by
  refine ⟨targetNetTimeOf_c8State, targetNetTimeSpec_c8State,
    by norm_num [JSN.num.injEq], nextIterationCount_c8State, ?_⟩
  rw [targetNetTimeSpec_c8State, grossMeanTimePerIterationOf_c8State,
    JSN.div_num_num _ _ one_ne_zero, JSN.round]
  norm_num

/-- C8, amended: for every scheduler state past the first cycle that
reaches the sizing step with a finite relative margin of error `r` at
or above the 2% target, the error factor is `min(r + 1, 10)` and the
target net time is the minimum of `remainingNetTime / errorFactor` and
the constant `TARGET_CYCLE_TIME = DEFAULT_MAX_TIME / 10` (3 seconds,
one tenth of the default budget, regardless of the configuration's own
`maxTime`); the scheduler then returns that target divided by the gross
mean time per iteration, rounded half-up. -/
theorem c8_cap_amended (s : BenchmarkState) (r : ℝ)
    (hc : s.cycles ≠ 0)
    (h1 : ¬ remainingTimeOf s ≤ 0)
    (hrme : s.timings.relativeMarginOfError = .num r)
    (hr : TARGET_RELATIVE_MARGIN_OF_ERROR ≤ r)
    (h3 : ¬ remainingTimeOf s < meanSetUpTimeOf s)
    (hg : 0 < s.elapsedCycleGrossTime) (hi : 0 < s.iterationCount) :
    errorFactorOf s = .num (min (r + 1) 10) ∧
    targetNetTimeOf s =
      .num (min ((remainingTimeOf s - meanSetUpTimeOf s) / min (r + 1) 10)
        (DEFAULT_MAX_TIME / 10)) ∧
    nextIterationCount s =
      .num ((⌊min ((remainingTimeOf s - meanSetUpTimeOf s) / min (r + 1) 10)
          (DEFAULT_MAX_TIME / 10) /
          (s.elapsedCycleGrossTime / s.iterationCount) + 1 / 2⌋ : ℤ) : ℝ) := by
  have hr' : (0.02 : ℝ) ≤ r := by
    rwa [TARGET_RELATIVE_MARGIN_OF_ERROR] at hr
  have hepos : 0 < min (r + 1) 10 := lt_min (by linarith) (by norm_num)
  have hef : errorFactorOf s = .num (min (r + 1) 10) := by
    rw [errorFactorOf, hrme]
    rfl
  have h2 : ¬ s.timings.relativeMarginOfError.lt (.num TARGET_RELATIVE_MARGIN_OF_ERROR) := by
    rw [hrme]
    exact not_lt.mpr hr
  have htgt : targetNetTimeOf s =
      .num (min ((remainingTimeOf s - meanSetUpTimeOf s) / min (r + 1) 10)
        (DEFAULT_MAX_TIME / 10)) := by
    rw [targetNetTimeOf, remainingNetTimeWithSafetyMarginOf, hef,
      JSN.div_num_num _ _ (ne_of_gt hepos), TARGET_CYCLE_TIME]
    rfl
  refine ⟨hef, htgt, ?_⟩
  rw [nextIterationCount_go hc h1 h2 h3, htgt, grossMeanTimePerIterationOf,
    JSN.div_num_num _ _ (ne_of_gt hi),
    JSN.div_num_num _ _ (ne_of_gt (div_pos hg hi)), JSN.round]

/-- Witness for the amended C8 at `c8State` (`r = 1`). -/
theorem c8_cap_witness :
    errorFactorOf c8State = .num (min ((1 : ℝ) + 1) 10) ∧
    targetNetTimeOf c8State =
      .num (min ((remainingTimeOf c8State - meanSetUpTimeOf c8State) / min ((1 : ℝ) + 1) 10)
        (DEFAULT_MAX_TIME / 10)) ∧
    nextIterationCount c8State =
      .num ((⌊min ((remainingTimeOf c8State - meanSetUpTimeOf c8State) / min ((1 : ℝ) + 1) 10)
          (DEFAULT_MAX_TIME / 10) /
          (c8State.elapsedCycleGrossTime / c8State.iterationCount) + 1 / 2⌋ : ℤ) : ℝ) :=
  c8_cap_amended c8State 1 (by norm_num [c8State])
    (by rw [remainingTimeOf_c8State]; norm_num) rfl
    (by rw [TARGET_RELATIVE_MARGIN_OF_ERROR]; norm_num)
    (by rw [remainingTimeOf_c8State, meanSetUpTimeOf_c8State]; norm_num)
    (by norm_num [c8State]) (by norm_num [c8State])

/-- C5, counterexample: `c5State` satisfies the claim's preconditions
(all elapsed times and the iteration/cycle counters are non-negative),
yet `nextIterationCount` returns `Infinity`, not a non-negative
integer: the accumulated gross cycle time is `0`, so the gross mean
time per iteration is `0` and the final division `targetNetTime / 0`
yields `Infinity` (and `Math.round(Infinity) = Infinity`). -/
theorem c5_scheduler_counterexample :
    0 ≤ c5State.elapsedTime ∧ 0 ≤ c5State.elapsedNetTime ∧
    0 ≤ c5State.elapsedTimeForInitialSetUp ∧ 0 ≤ c5State.elapsedCycleGrossTime ∧
    0 ≤ c5State.iterationCount ∧
    nextIterationCount c5State = JSN.inf ∧
    (∀ k : ℤ, JSN.inf ≠ JSN.num (k : ℝ)) := by
  refine ⟨by norm_num [c5State], by norm_num [c5State], by norm_num [c5State],
    by norm_num [c5State], by norm_num [c5State], nextIterationCount_c5State,
    fun k => by simp⟩

/-- C5, amended: the scheduler never returns a negative value; with
`cycles = 0` it returns exactly `initialCount` (defaulting to 1),
regardless of the time budget; and whenever the accumulated gross cycle
time and the iteration counter are positive (true in every state an
actual run reaches past the first cycle) and the relative margin of
error is not `NaN`, the result is a non-negative integer.  In the
degenerate zero-gross-time or zero-iteration states the result can be
`Infinity` or `NaN` instead — still never negative. -/
theorem c5_scheduler_amended (s : BenchmarkState)
    (hgross : 0 ≤ s.elapsedCycleGrossTime) (hiter : 0 ≤ s.iterationCount)
    (hic : ∀ x, s.config.initialCount = some x → 0 ≤ x) :
    (nextIterationCount s).notNeg ∧
    (s.cycles = 0 →
      nextIterationCount s = .num (orDefault s.config.initialCount INITIAL_ITERATION_COUNT)) ∧
    (s.cycles ≠ 0 → 0 < s.elapsedCycleGrossTime → 0 < s.iterationCount →
      s.timings.relativeMarginOfError ≠ .nan →
      ∃ k : ℤ, 0 ≤ k ∧ nextIterationCount s = .num (k : ℝ)) := by
  refine ⟨?_, fun h0 => nextIterationCount_first h0, ?_⟩
  · by_cases h0 : s.cycles = 0
    · rw [nextIterationCount_first h0]
      show (0 : ℝ) ≤ orDefault s.config.initialCount INITIAL_ITERATION_COUNT
      cases hcfg : s.config.initialCount with
      | none => norm_num [orDefault, INITIAL_ITERATION_COUNT]
      | some x =>
        by_cases hx0 : x = 0
        · simp only [orDefault]
          rw [if_pos hx0, INITIAL_ITERATION_COUNT]
          norm_num
        · simp only [orDefault]
          rw [if_neg hx0]
          exact hic x hcfg
    · by_cases h1 : remainingTimeOf s ≤ 0
      · rw [nextIterationCount_outOfTime h0 h1]
        exact le_refl 0
      · by_cases h2 : s.timings.relativeMarginOfError.lt
            (.num TARGET_RELATIVE_MARGIN_OF_ERROR)
        · rw [nextIterationCount_converged h0 h1 h2]
          exact le_refl 0
        · by_cases h3 : remainingTimeOf s < meanSetUpTimeOf s
          · rw [nextIterationCount_noSetupBudget h0 h1 h2 h3]
            exact le_refl 0
          · rw [nextIterationCount_go h0 h1 h2 h3]
            rcases targetNetTime_go h2 h3 with ⟨_, htgt⟩ | ⟨t, ht, htgt⟩
            · rw [htgt, JSN.div_nan_left]
              trivial
            · rw [htgt, grossMeanTimePerIterationOf]
              exact notNeg_round_div t _ _ ht hgross hiter
  · intro hc hg hi hnan
    by_cases h1 : remainingTimeOf s ≤ 0
    · exact ⟨0, le_refl 0, by rw [nextIterationCount_outOfTime hc h1]; norm_num⟩
    · by_cases h2 : s.timings.relativeMarginOfError.lt
          (.num TARGET_RELATIVE_MARGIN_OF_ERROR)
      · exact ⟨0, le_refl 0, by rw [nextIterationCount_converged hc h1 h2]; norm_num⟩
      · by_cases h3 : remainingTimeOf s < meanSetUpTimeOf s
        · exact ⟨0, le_refl 0, by rw [nextIterationCount_noSetupBudget hc h1 h2 h3]; norm_num⟩
        · rcases targetNetTime_go h2 h3 with ⟨hrme, _⟩ | ⟨t, ht, htgt⟩
          · exact absurd hrme hnan
          · have hq : 0 < s.elapsedCycleGrossTime / s.iterationCount := div_pos hg hi
            refine ⟨⌊t / (s.elapsedCycleGrossTime / s.iterationCount) + 1 / 2⌋, ?_, ?_⟩
            · apply Int.floor_nonneg.mpr
              have : 0 ≤ t / (s.elapsedCycleGrossTime / s.iterationCount) :=
                div_nonneg ht hq.le
              linarith
            · rw [nextIterationCount_go hc h1 h2 h3, htgt, grossMeanTimePerIterationOf,
                JSN.div_num_num _ _ (ne_of_gt hi),
                JSN.div_num_num _ _ (ne_of_gt hq), JSN.round]

/-- Witness for the amended C5 at the concrete state `c1State`. -/
theorem c5_scheduler_witness :
    (nextIterationCount c1State).notNeg ∧
    (c1State.cycles = 0 →
      nextIterationCount c1State =
        .num (orDefault c1State.config.initialCount INITIAL_ITERATION_COUNT)) ∧
    (c1State.cycles ≠ 0 → 0 < c1State.elapsedCycleGrossTime → 0 < c1State.iterationCount →
      c1State.timings.relativeMarginOfError ≠ .nan →
      ∃ k : ℤ, 0 ≤ k ∧ nextIterationCount c1State = .num (k : ℝ)) :=
  c5_scheduler_amended c1State (by norm_num [c1State]) (by norm_num [c1State])
    (fun x h => by simp [c1State] at h)
